import Mathlib

/-!
Verification development for the AION kernel (acidderek/acid-aion).

The Rust source is shallowly embedded: per-organ health values (f32 in the
source, always kept inside the unit interval by clamping) are modelled as
rationals, the topology as lists of records, and each daemon tick or command
handler as a pure state-passing function.  Lock acquisition on the shared
topology is modelled by an explicit success flag or an Option argument, and
the two standard-library string-to-float parsers used by the command daemon
are passed in as function parameters, since they are not code of this
repository.
-/

namespace Aion

/-- Clamp a rational to the unit interval, as the source clamp(0.0, 1.0)
and the telemetry helper clamp01. -/
def clamp01 (x : ℚ) : ℚ := if x < 0 then 0 else if 1 < x then 1 else x

/-- Organ kinds, from src/organism/mod.rs. -/
inductive OrganKind
  | Cortex
  | Memory
  | IoBridge
  | SensorHub
  | MotorControl
  | Network
  | Storage
  deriving DecidableEq

/-- Capability tags, from src/organism/mod.rs. -/
inductive CapabilityKind
  | Compute
  | Perception
  | Actuation
  | Storage
  | Networking
  | Planning
  | Learning
  deriving DecidableEq

/-- Peripheral kinds, from src/organism/mod.rs. -/
inductive PeripheralKind
  | Cpu
  | Gpu
  | Nic
  | Disk
  | Usb
  | Sensor
  | Motor
  | Display
  | Unknown
  deriving DecidableEq

/-- Peripheral record, from src/organism/mod.rs. -/
structure Peripheral where
  kind : PeripheralKind
  name : String
  deriving DecidableEq

/-- Organ record, from src/organism/mod.rs.  NodeId/OrganId newtypes over u32
are modelled as plain naturals. -/
structure Organ where
  id : ℕ
  node : ℕ
  kind : OrganKind
  caps : List CapabilityKind
  health : ℚ
  peripherals : List Peripheral
  deriving DecidableEq

/-- Node record, from src/organism/mod.rs. -/
structure Node where
  id : ℕ
  label : String
  role : String
  deriving DecidableEq

/-- The shared topology, from src/organism/mod.rs. -/
structure SystemTopology where
  nodes : List Node
  organs : List Organ
  deriving DecidableEq

/-- The fixed sample topology built at boot, from src/organism/mod.rs
(sample_topology). -/
def sample_topology : SystemTopology :=
  { nodes :=
      [ { id := 1, label := "core-0", role := "primary brain" },
        { id := 2, label := "io-0", role := "peripheral bridge" } ],
    organs :=
      [ { id := 1, node := 1, kind := OrganKind.Cortex,
          caps := [CapabilityKind.Compute, CapabilityKind.Planning, CapabilityKind.Learning],
          health := 0.98,
          peripherals :=
            [ { kind := PeripheralKind.Cpu, name := "Sim-CPU-0" },
              { kind := PeripheralKind.Gpu, name := "Sim-GPU-0" } ] },
        { id := 2, node := 1, kind := OrganKind.Memory,
          caps := [CapabilityKind.Storage, CapabilityKind.Perception],
          health := 0.99,
          peripherals := [ { kind := PeripheralKind.Disk, name := "Sim-NVMe-0" } ] },
        { id := 3, node := 2, kind := OrganKind.IoBridge,
          caps := [CapabilityKind.Networking, CapabilityKind.Actuation],
          health := 0.97,
          peripherals :=
            [ { kind := PeripheralKind.Nic, name := "Sim-10G-NIC-0" },
              { kind := PeripheralKind.Usb, name := "Sim-USB-Hub-0" },
              { kind := PeripheralKind.Display, name := "Sim-Display-0" } ] } ] }

/-- Accumulator for the single pass over organs in compute_awareness:
the three mutable locals cortex_h, memory_h, io_h of the source. -/
structure RoleHealths where
  cortex_h : ℚ
  memory_h : ℚ
  io_h : ℚ
  deriving DecidableEq

/-- One step of the organ loop inside compute_awareness. -/
def awareness_step (hs : RoleHealths) (o : Organ) : RoleHealths :=
  match o.kind with
  | OrganKind.Cortex => { hs with cortex_h := o.health }
  | OrganKind.Memory => { hs with memory_h := o.health }
  | OrganKind.IoBridge => { hs with io_h := o.health }
  | _ => hs

/-- The awareness index, from src/organism/mod.rs (compute_awareness):
the three role healths start at 1.0, each matching organ overwrites its
role entry, and the weighted sum 0.4 / 0.3 / 0.3 is clamped to the unit
interval. -/
def compute_awareness (t : SystemTopology) : ℚ :=
  clamp01
    (0.4 * (t.organs.foldl awareness_step { cortex_h := 1, memory_h := 1, io_h := 1 }).cortex_h
      + 0.3 * (t.organs.foldl awareness_step { cortex_h := 1, memory_h := 1, io_h := 1 }).memory_h
      + 0.3 * (t.organs.foldl awareness_step { cortex_h := 1, memory_h := 1, io_h := 1 }).io_h)

/-- The awareness label, from src/organism/mod.rs (describe_awareness). -/
def describe_awareness (a : ℚ) : String :=
  let v := clamp01 a
  if v ≥ 0.85 then "optimal"
  else if v ≥ 0.60 then "stable"
  else if v ≥ 0.35 then "impaired"
  else if v > 0 then "critical"
  else "unconscious"

/-- The overall health score, from src/kernel/mod.rs (compute_overall_health):
minimum organ health, 1.0 for an empty organ list. -/
def compute_overall_health (t : SystemTopology) : ℚ :=
  if t.organs.isEmpty then 1
  else t.organs.foldl (fun acc o => min acc o.health) 1

/-- The health label, from src/kernel/mod.rs (classify_health). -/
def classify_health (h : ℚ) : String :=
  if h ≥ 0.85 then "ok"
  else if h ≥ 0.6 then "degraded"
  else if h ≥ 0.35 then "impaired"
  else if h > 0 then "critical"
  else "failed"

/-- The health of the last organ of a given kind in the list, defaulting
to 1.0 when no such organ exists.  This is the per-role health that the
loop of compute_awareness leaves in its accumulator, written as the
specification words it (one health per role, default 1.0 when absent). -/
def role_health (kind : OrganKind) (t : SystemTopology) : ℚ :=
  t.organs.foldl (fun acc o => if o.kind = kind then o.health else acc) 1

/-- Simulation aggressiveness, from src/telemetry/mod.rs. -/
inductive SimLevel
  | Off
  | Low
  | High
  deriving DecidableEq

/-- CPU / GPU metrics, from src/telemetry/mod.rs.  The u32 event counter is
modelled as a natural; the f32 readings as rationals. -/
structure CpuGpuMetrics where
  cpu_load : ℚ
  cpu_temp_c : ℚ
  throttling_events : ℕ
  gpu_load : ℚ
  gpu_mem_util : ℚ
  deriving DecidableEq

/-- Memory metrics, from src/telemetry/mod.rs. -/
structure MemoryMetrics where
  ram_used_ratio : ℚ
  swap_used_ratio : ℚ
  major_page_faults : ℚ
  disk_latency_ms : ℚ
  deriving DecidableEq

/-- IO and network metrics, from src/telemetry/mod.rs. -/
structure IoMetrics where
  net_packet_loss : ℚ
  net_latency_ms : ℚ
  io_queue_depth : ℚ
  io_error_rate : ℚ
  deriving DecidableEq

/-- Cortex target health from CPU metrics, from src/telemetry/mod.rs
(compute_cortex_health). -/
def compute_cortex_health (m : CpuGpuMetrics) : ℚ :=
  let temp_penalty := if m.cpu_temp_c ≤ 60 then 0 else min ((m.cpu_temp_c - 60) / 40) 0.6
  clamp01 (1 - temp_penalty)

/-- Memory target health from memory metrics, from src/telemetry/mod.rs
(compute_memory_health).  The record is destructured positionally. -/
def compute_memory_health : MemoryMetrics → ℚ
  | { ram_used_ratio := ram, swap_used_ratio := _, major_page_faults := _,
      disk_latency_ms := _ } =>
    let ram_penalty := if ram ≤ 0.75 then 0 else min (ram - 0.75) 0.3
    clamp01 (1 - ram_penalty)

/-- IoBridge target health from IO metrics, from src/telemetry/mod.rs
(compute_iobridge_health). -/
def compute_iobridge_health (m : IoMetrics) : ℚ :=
  let loss_penalty := min (m.net_packet_loss * 4) 0.4
  clamp01 (1 - loss_penalty)

/-- Blend current organ health toward a target health, from src/kernel/mod.rs
(StatusDaemon::blend_health): both inputs are clamped and the result is
their convex combination with weight alpha on the target. -/
def blend_health (current target alpha : ℚ) : ℚ :=
  (1 - alpha) * clamp01 current + alpha * clamp01 target

/-- Telemetry-driven health adjustment of the whole topology, from
src/kernel/mod.rs (StatusDaemon::apply_telemetry_to_topology): each of the
three telemetry-coupled organ kinds is blended toward its target with
alpha = 0.25; other kinds are untouched. -/
def apply_telemetry_to_topology (t : SystemTopology) (cpu_gpu : CpuGpuMetrics)
    (mem : MemoryMetrics) (io : IoMetrics) : SystemTopology :=
  { t with organs := t.organs.map (fun organ =>
      match organ.kind with
      | OrganKind.Cortex =>
          { organ with health := blend_health organ.health (compute_cortex_health cpu_gpu) 0.25 }
      | OrganKind.Memory =>
          { organ with health := blend_health organ.health (compute_memory_health mem) 0.25 }
      | OrganKind.IoBridge =>
          { organ with health := blend_health organ.health (compute_iobridge_health io) 0.25 }
      | _ => organ) }

/-- The bus event a daemon tick publishes, abstracted from the formatted
text: no event, a normal event, or a textual error event. -/
inductive TickMsg
  | noMsg
  | okMsg
  | errMsg (s : String)
  deriving DecidableEq

/-- One StatusDaemon tick past its interval gate, from src/kernel/mod.rs
(StatusDaemon::tick): on a successful topology lock, blend telemetry into
the topology, write the recomputed awareness to the bus and publish a
status line; on lock failure, publish an error line and change nothing. -/
def status_tick (lock_ok : Bool) (t : SystemTopology) (bus_awareness : ℚ)
    (cpu_gpu : CpuGpuMetrics) (mem : MemoryMetrics) (io : IoMetrics) :
    SystemTopology × ℚ × TickMsg :=
  if lock_ok then
    let t2 := apply_telemetry_to_topology t cpu_gpu mem io
    (t2, compute_awareness t2, TickMsg.okMsg)
  else
    (t, bus_awareness, TickMsg.errMsg "status tick: failed to lock topology")

/-- The five coarse policies of the AI daemon, from src/kernel/mod.rs
(AiDaemon::tick). -/
inductive Policy
  | push_capacity
  | maintain_load
  | reduce_load
  | protect_core
  | recover_offline
  deriving DecidableEq

/-- The policy ladder of AiDaemon::tick in src/kernel/mod.rs over an
awareness value, with the resulting simulation level: in the critical
branch the level is forced Off, every other branch leaves it as is. -/
def ai_policy (awareness : ℚ) (sim_level : SimLevel) : Policy × SimLevel :=
  if awareness ≥ 0.85 then (Policy.push_capacity, sim_level)
  else if awareness ≥ 0.60 then (Policy.maintain_load, sim_level)
  else if awareness ≥ 0.35 then (Policy.reduce_load, sim_level)
  else if awareness > 0 then (Policy.protect_core, SimLevel.Off)
  else (Policy.recover_offline, sim_level)

/-- One AiDaemon tick past its interval gate, from src/kernel/mod.rs
(AiDaemon::tick): awareness is read from the topology, or substituted by
the cached bus score when the lock fails; then the policy ladder decides
the published policy and possibly forces the simulation level Off.  The
topology itself is only read. -/
def ai_tick (lock_ok : Bool) (t : SystemTopology) (bus_awareness : ℚ)
    (sim_level : SimLevel) : SystemTopology × Policy × SimLevel :=
  let awareness := if lock_ok then compute_awareness t else bus_awareness
  (t, ai_policy awareness sim_level)

/-- A placeholder organ for list indexing; sim_tick only reads an index that
is in bounds, so this default is never actually selected. -/
def default_organ : Organ :=
  { id := 0, node := 0, kind := OrganKind.Cortex, caps := [], health := 0, peripherals := [] }

/-- Nudge an organ health by a signed delta and clamp, from src/kernel/mod.rs
(SimulationDaemon::nudge_health). -/
def nudge_health (organ : Organ) (delta : ℚ) : Organ :=
  { organ with health := clamp01 (organ.health + delta) }

/-- One SimulationDaemon tick past its interval gate, from src/kernel/mod.rs
(SimulationDaemon::tick): the u64 tick counter is bumped with wrapping
arithmetic before anything else; Off is a no-op; a failed topology lock is
silently skipped; an empty organ list is a no-op; otherwise the round-robin
organ is nudged by the level-dependent delta and a sim event is published.
The Off arm of the inner match is unreachable, as in the source. -/
def sim_tick (lock_ok : Bool) (tick0 : ℕ) (sim_level : SimLevel)
    (t : SystemTopology) : ℕ × SystemTopology × TickMsg :=
  let tick := (tick0 + 1) % 2 ^ 64
  if sim_level = SimLevel.Off then (tick, t, TickMsg.noMsg)
  else if lock_ok = false then (tick, t, TickMsg.noMsg)
  else if t.organs.isEmpty then (tick, t, TickMsg.noMsg)
  else
    let idx := tick % t.organs.length
    let delta : ℚ :=
      match sim_level with
      | SimLevel.Low => if tick % 5 = 0 then 0.02 else -0.01
      | SimLevel.High => if tick % 3 = 0 then 0.03 else -0.04
      | SimLevel.Off => 0
    let organ := t.organs.getD idx default_organ
    (tick, { t with organs := t.organs.set idx (nudge_health organ delta) }, TickMsg.okMsg)

/-- Case-insensitive organ-kind names, from src/kernel/mod.rs
(CommandDaemon::parse_organ_kind).  Lowercasing is written as a character
map over the char list, which is what to_lowercase does on these ASCII
names. -/
def parse_organ_kind (name : String) : Option OrganKind :=
  match String.mk (name.data.map Char.toLower) with
  | "cortex" => some OrganKind.Cortex
  | "memory" => some OrganKind.Memory
  | "iobridge" => some OrganKind.IoBridge
  | "io" => some OrganKind.IoBridge
  | "sensorhub" => some OrganKind.SensorHub
  | "motorcontrol" => some OrganKind.MotorControl
  | "motor" => some OrganKind.MotorControl
  | "network" => some OrganKind.Network
  | "storage" => some OrganKind.Storage
  | _ => none

/-- Apply a health update to the first organ of the given kind, returning
the updated list and the new health, or none when no organ of that kind
exists.  This is the for-loop with break shared by handle_damage and
handle_heal in src/kernel/mod.rs. -/
def update_first (kind : OrganKind) (f : ℚ → ℚ) : List Organ → Option (List Organ × ℚ)
  | [] => none
  | o :: rest =>
    if o.kind = kind then
      some ({ o with health := f o.health } :: rest, f o.health)
    else
      match update_first kind f rest with
      | some (rest2, h) => some (o :: rest2, h)
      | none => none

/-- Health of the first organ of the given kind, if any. -/
def first_kind_health (kind : OrganKind) : List Organ → Option ℚ
  | [] => none
  | o :: rest => if o.kind = kind then some o.health else first_kind_health kind rest

/-- Outcome of a damage / heal / load command, abstracted from the formatted
reply text: each constructor is one reply branch of the source, carrying
the data interpolated into the reply. -/
inductive CmdResult
  | usage (msg : String)
  | invalid_amount (raw : String)
  | unknown_organ (raw : String)
  | not_found (kind : OrganKind)
  | applied (kind : OrganKind) (amount new_health awareness : ℚ) (label : String)
  | lock_failed (msg : String)
  | io_failed (msg : String)
  | loaded (awareness : ℚ) (label : String)
  deriving DecidableEq

/-- The damage command, from src/kernel/mod.rs (CommandDaemon::handle_damage).
The standard-library float parser is a parameter; the topology lock is an
explicit success flag.  Returns the stored topology, the bus awareness
score, and the reply. -/
def handle_damage (parse_amount : String → Option ℚ) (parts : List String)
    (lock_ok : Bool) (t : SystemTopology) (bus_awareness : ℚ) :
    SystemTopology × ℚ × CmdResult :=
  if parts.length ≠ 3 then (t, bus_awareness, CmdResult.usage "usage: damage <organ> <amount>")
  else
    match parse_amount (parts.getD 2 "") with
    | none => (t, bus_awareness, CmdResult.invalid_amount (parts.getD 2 ""))
    | some amount =>
      match parse_organ_kind (parts.getD 1 "") with
      | none => (t, bus_awareness, CmdResult.unknown_organ (parts.getD 1 ""))
      | some kind =>
        if lock_ok then
          match update_first kind (fun h => clamp01 (h - amount)) t.organs with
          | some (organs2, h) =>
            let t2 : SystemTopology := { t with organs := organs2 }
            let awareness := compute_awareness t2
            (t2, awareness,
              CmdResult.applied kind amount h awareness (describe_awareness awareness))
          | none => (t, bus_awareness, CmdResult.not_found kind)
        else
          (t, bus_awareness, CmdResult.lock_failed "failed to lock topology for damage")

/-- The heal command, from src/kernel/mod.rs (CommandDaemon::handle_heal);
identical to handle_damage except the delta is added. -/
def handle_heal (parse_amount : String → Option ℚ) (parts : List String)
    (lock_ok : Bool) (t : SystemTopology) (bus_awareness : ℚ) :
    SystemTopology × ℚ × CmdResult :=
  if parts.length ≠ 3 then (t, bus_awareness, CmdResult.usage "usage: heal <organ> <amount>")
  else
    match parse_amount (parts.getD 2 "") with
    | none => (t, bus_awareness, CmdResult.invalid_amount (parts.getD 2 ""))
    | some amount =>
      match parse_organ_kind (parts.getD 1 "") with
      | none => (t, bus_awareness, CmdResult.unknown_organ (parts.getD 1 ""))
      | some kind =>
        if lock_ok then
          match update_first kind (fun h => clamp01 (h + amount)) t.organs with
          | some (organs2, h) =>
            let t2 : SystemTopology := { t with organs := organs2 }
            let awareness := compute_awareness t2
            (t2, awareness,
              CmdResult.applied kind amount h awareness (describe_awareness awareness))
          | none => (t, bus_awareness, CmdResult.not_found kind)
        else
          (t, bus_awareness, CmdResult.lock_failed "failed to lock topology for heal")

/-- The save-state command, from src/kernel/mod.rs
(CommandDaemon::handle_save_state): the topology is never mutated; the
reply depends on the lock and on the file write outcome. -/
def handle_save_state (lock_ok write_ok : Bool) (t : SystemTopology) :
    SystemTopology × String :=
  if lock_ok then
    if write_ok then (t, "state saved to aion_state.txt")
    else (t, "failed to save state")
  else (t, "failed to lock topology for save")

/-- Overwrite the health of the first organ of the given kind, leaving the
list unchanged when no organ of that kind exists.  This is the inner
for-loop with break of handle_load_state in src/kernel/mod.rs. -/
def set_first_health (kind : OrganKind) (h : ℚ) : List Organ → List Organ
  | [] => []
  | o :: rest =>
    if o.kind = kind then { o with health := h } :: rest
    else o :: set_first_health kind h rest

/-- Apply one whitespace-tokenized line of the state file, from
src/kernel/mod.rs (handle_load_state): a line without two tokens, with an
unknown organ name, or with an unparsable health value is silently skipped;
a valid line overwrites the first matching organ health, clamped. -/
def apply_state_line (parse_health : String → Option ℚ) (t : SystemTopology)
    (line : List String) : SystemTopology :=
  match line with
  | [] => t
  | [_] => t
  | kind_str :: health_str :: _ =>
    match parse_organ_kind kind_str with
    | none => t
    | some kind =>
      match parse_health health_str with
      | none => t
      | some h => { t with organs := set_first_health kind (clamp01 h) t.organs }

/-- The load-state command, from src/kernel/mod.rs
(CommandDaemon::handle_load_state): the file is read first (none models a
read failure), then under the topology lock every line is applied in order
and awareness is recomputed once after the whole file. -/
def handle_load_state (parse_health : String → Option ℚ) (lock_ok : Bool)
    (content : Option (List (List String))) (t : SystemTopology)
    (bus_awareness : ℚ) : SystemTopology × ℚ × CmdResult :=
  match content with
  | none => (t, bus_awareness, CmdResult.io_failed "failed to load state")
  | some lines =>
    if lock_ok then
      let t2 := lines.foldl (apply_state_line parse_health) t
      let awareness := compute_awareness t2
      (t2, awareness, CmdResult.loaded awareness (describe_awareness awareness))
    else (t, bus_awareness, CmdResult.lock_failed "failed to lock topology for load")

/-- The per-request health and awareness snapshot of the HTTP listener, from
src/http/mod.rs (HttpServer::start): on a successful topology lock the four
values are computed from the topology (the health label ladder is inlined
in the source); on lock failure the fixed tuple (1.0, ok, 1.0, optimal) is
substituted. -/
def http_snapshot (lock : Option SystemTopology) : ℚ × String × ℚ × String :=
  match lock with
  | some topo =>
    let h := compute_overall_health topo
    let hl :=
      if h ≥ 0.85 then "ok"
      else if h ≥ 0.60 then "degraded"
      else if h ≥ 0.35 then "impaired"
      else if h > 0 then "critical"
      else "failed"
    let a := compute_awareness topo
    (h, hl, a, describe_awareness a)
  | none => (1, "ok", 1, "optimal")

/-- Every organ health in the topology lies in the unit interval. -/
def healths_in_unit (t : SystemTopology) : Prop :=
  ∀ o ∈ t.organs, 0 ≤ o.health ∧ o.health ≤ 1

/-- A one-organ topology holding a Cortex at health 0.05, used to exercise
the damage / heal round trip at the clamping boundary. -/
def c4_topo : SystemTopology :=
  { nodes := [],
    organs := [ { id := 1, node := 1, kind := OrganKind.Cortex, caps := [],
                  health := 0.05, peripherals := [] } ] }

/-- A topology holding two Cortex organs, used to exercise the
first-organ-only rule of damage and heal. -/
def c10_topo : SystemTopology :=
  { nodes := [],
    organs :=
      [ { id := 1, node := 1, kind := OrganKind.Cortex, caps := [],
          health := 0.5, peripherals := [] },
        { id := 2, node := 1, kind := OrganKind.Cortex, caps := [],
          health := 0.6, peripherals := [] } ] }

lemma clamp01_nonneg (x : ℚ) : 0 ≤ clamp01 x := by
  unfold clamp01
  split_ifs with h1 h2 <;> linarith

lemma clamp01_le_one (x : ℚ) : clamp01 x ≤ 1 := by
  unfold clamp01
  split_ifs with h1 h2 <;> linarith

lemma clamp01_of_unit (x : ℚ) (h0 : 0 ≤ x) (h1 : x ≤ 1) : clamp01 x = x := by
  unfold clamp01
  split_ifs with h2 h3 <;> linarith

lemma foldl_awareness_cortex (l : List Organ) (hs : RoleHealths) :
    (l.foldl awareness_step hs).cortex_h =
      l.foldl (fun acc o => if o.kind = OrganKind.Cortex then o.health else acc) hs.cortex_h := by
  induction l generalizing hs with
  | nil => rfl
  | cons o rest ih =>
      simp only [List.foldl_cons, ih]
      cases h : o.kind <;> simp [awareness_step, h]

lemma foldl_awareness_memory (l : List Organ) (hs : RoleHealths) :
    (l.foldl awareness_step hs).memory_h =
      l.foldl (fun acc o => if o.kind = OrganKind.Memory then o.health else acc) hs.memory_h := by
  induction l generalizing hs with
  | nil => rfl
  | cons o rest ih =>
      simp only [List.foldl_cons, ih]
      cases h : o.kind <;> simp [awareness_step, h]

lemma foldl_awareness_io (l : List Organ) (hs : RoleHealths) :
    (l.foldl awareness_step hs).io_h =
      l.foldl (fun acc o => if o.kind = OrganKind.IoBridge then o.health else acc) hs.io_h := by
  induction l generalizing hs with
  | nil => rfl
  | cons o rest ih =>
      simp only [List.foldl_cons, ih]
      cases h : o.kind <;> simp [awareness_step, h]

/-- The awareness function agrees with the per-role weighted-sum reading:
weights 0.4, 0.3, 0.3 over the role healths (default 1.0), clamped. -/
lemma compute_awareness_eq_weighted (t : SystemTopology) :
    compute_awareness t =
      clamp01 (0.4 * role_health OrganKind.Cortex t
        + 0.3 * role_health OrganKind.Memory t
        + 0.3 * role_health OrganKind.IoBridge t) := by
  unfold compute_awareness role_health
  rw [foldl_awareness_cortex, foldl_awareness_memory, foldl_awareness_io]

lemma compute_awareness_nonneg (t : SystemTopology) : 0 ≤ compute_awareness t :=
  clamp01_nonneg _

lemma compute_awareness_le_one (t : SystemTopology) : compute_awareness t ≤ 1 :=
  clamp01_le_one _

lemma sample_awareness_value : compute_awareness sample_topology = 0.98 := by
  norm_num [compute_awareness, sample_topology, awareness_step, clamp01]

lemma sample_awareness_label :
    describe_awareness (compute_awareness sample_topology) = "optimal" := by
  rw [sample_awareness_value]
  norm_num [describe_awareness, clamp01]

/-- C1 fails on the code: the awareness of the sample topology is 0.98, not
the 0.981 that the 0.5 / 0.3 / 0.2 weighting of the claim would give. -/
theorem c1_counterexample :
    compute_awareness sample_topology = 0.98 ∧ (0.98 : ℚ) ≠ 0.981 := by
  exact ⟨sample_awareness_value, by norm_num⟩

/-- C1 (amended): the awareness function computes the weighted sum
0.4 * cortexHealth + 0.3 * memoryHealth + 0.3 * ioBridgeHealth, where the
health of a role absent from the topology defaults to 1.0, and the result
is clamped to the unit interval; for the sample topology (Cortex 0.98,
Memory 0.99, IoBridge 0.97) the awareness equals 0.980 and its label is
"optimal". -/
theorem c1_awareness_weights :
    (∀ t : SystemTopology,
        compute_awareness t =
          clamp01 (0.4 * role_health OrganKind.Cortex t
            + 0.3 * role_health OrganKind.Memory t
            + 0.3 * role_health OrganKind.IoBridge t)
        ∧ 0 ≤ compute_awareness t ∧ compute_awareness t ≤ 1)
    ∧ compute_awareness sample_topology = 0.98
    ∧ describe_awareness (compute_awareness sample_topology) = "optimal" := by
  refine ⟨fun t => ⟨compute_awareness_eq_weighted t, compute_awareness_nonneg t,
    compute_awareness_le_one t⟩, sample_awareness_value, sample_awareness_label⟩

lemma blend_health_nonneg (c tg a : ℚ) (ha0 : 0 ≤ a) (ha1 : a ≤ 1) :
    0 ≤ blend_health c tg a := by
  unfold blend_health
  have h1 := clamp01_nonneg c
  have h2 := clamp01_nonneg tg
  have : 0 ≤ (1 - a) * clamp01 c := mul_nonneg (by linarith) h1
  have : 0 ≤ a * clamp01 tg := mul_nonneg ha0 h2
  linarith

lemma blend_health_le_one (c tg a : ℚ) (ha0 : 0 ≤ a) (ha1 : a ≤ 1) :
    blend_health c tg a ≤ 1 := by
  unfold blend_health
  have h1 := clamp01_le_one c
  have h2 := clamp01_le_one tg
  have h3 := clamp01_nonneg c
  have h4 := clamp01_nonneg tg
  nlinarith

lemma blend_health_formula (x y : ℚ) (hx0 : 0 ≤ x) (hx1 : x ≤ 1)
    (hy0 : 0 ≤ y) (hy1 : y ≤ 1) :
    blend_health x y 0.25 = 0.75 * x + 0.25 * y := by
  unfold blend_health
  rw [clamp01_of_unit x hx0 hx1, clamp01_of_unit y hy0 hy1]
  norm_num

lemma mem_update_first {kind : OrganKind} {f : ℚ → ℚ} {l l2 : List Organ} {h : ℚ}
    (hu : update_first kind f l = some (l2, h)) :
    ∀ o2 ∈ l2, o2 ∈ l ∨ ∃ o ∈ l, o2 = { o with health := f o.health } := by
  induction l generalizing l2 h with
  | nil => simp [update_first] at hu
  | cons o rest ih =>
      unfold update_first at hu
      by_cases hk : o.kind = kind
      · rw [if_pos hk] at hu
        injection hu with hu
        injection hu with hu1 hu2
        subst hu1
        intro o2 ho2
        rcases List.mem_cons.mp ho2 with hh | hh
        · exact Or.inr ⟨o, List.mem_cons_self o rest, hh⟩
        · exact Or.inl (List.mem_cons_of_mem o hh)
      · rw [if_neg hk] at hu
        cases hrest : update_first kind f rest with
        | none => rw [hrest] at hu; exact absurd hu (by simp)
        | some p =>
            obtain ⟨rest2, h2⟩ := p
            rw [hrest] at hu
            injection hu with hu
            injection hu with hu1 hu2
            subst hu1
            intro o2 ho2
            rcases List.mem_cons.mp ho2 with hh | hh
            · exact Or.inl (hh ▸ List.mem_cons_self o rest)
            · rcases ih hrest o2 hh with hc | ⟨o3, ho3, he⟩
              · exact Or.inl (List.mem_cons_of_mem o hc)
              · exact Or.inr ⟨o3, List.mem_cons_of_mem o ho3, he⟩

lemma mem_set_first_health {kind : OrganKind} {h : ℚ} {l : List Organ} :
    ∀ o2 ∈ set_first_health kind h l, o2 ∈ l ∨ ∃ o ∈ l, o2 = { o with health := h } := by
  induction l with
  | nil => simp [set_first_health]
  | cons o rest ih =>
      unfold set_first_health
      by_cases hk : o.kind = kind
      · rw [if_pos hk]
        intro o2 ho2
        rcases List.mem_cons.mp ho2 with hh | hh
        · exact Or.inr ⟨o, List.mem_cons_self o rest, hh⟩
        · exact Or.inl (List.mem_cons_of_mem o hh)
      · rw [if_neg hk]
        intro o2 ho2
        rcases List.mem_cons.mp ho2 with hh | hh
        · exact Or.inl (hh ▸ List.mem_cons_self o rest)
        · rcases ih o2 hh with hc | ⟨o3, ho3, he⟩
          · exact Or.inl (List.mem_cons_of_mem o hc)
          · exact Or.inr ⟨o3, List.mem_cons_of_mem o ho3, he⟩

lemma healths_in_unit_apply_telemetry (t : SystemTopology) (ht : healths_in_unit t)
    (cpu_gpu : CpuGpuMetrics) (mem : MemoryMetrics) (io : IoMetrics) :
    healths_in_unit (apply_telemetry_to_topology t cpu_gpu mem io) := by
  intro o2 ho2
  simp only [apply_telemetry_to_topology, List.mem_map] at ho2
  obtain ⟨o, ho, he⟩ := ho2
  have hb : 0 ≤ o.health ∧ o.health ≤ 1 := ht o ho
  subst he
  cases hk : o.kind <;>
    simp only [hk] <;>
    first
      | exact hb
      | exact ⟨blend_health_nonneg _ _ _ (by norm_num) (by norm_num),
          blend_health_le_one _ _ _ (by norm_num) (by norm_num)⟩

lemma healths_in_unit_sim_tick (t : SystemTopology) (ht : healths_in_unit t)
    (lock_ok : Bool) (tick0 : ℕ) (sim_level : SimLevel) :
    healths_in_unit (sim_tick lock_ok tick0 sim_level t).2.1 := by
  unfold sim_tick
  split_ifs <;> try exact ht
  intro o2 ho2
  simp only at ho2
  rcases List.mem_or_eq_of_mem_set ho2 with hh | hh
  · exact ht o2 hh
  · subst hh
    exact ⟨clamp01_nonneg _, clamp01_le_one _⟩

lemma healths_in_unit_update_first {t : SystemTopology} (ht : healths_in_unit t)
    {kind : OrganKind} {f : ℚ → ℚ} (hf : ∀ x, 0 ≤ f x ∧ f x ≤ 1)
    {organs2 : List Organ} {h : ℚ}
    (hu : update_first kind f t.organs = some (organs2, h)) :
    healths_in_unit { t with organs := organs2 } := by
  intro o2 ho2
  rcases mem_update_first hu o2 ho2 with hh | ⟨o, ho, he⟩
  · exact ht o2 hh
  · subst he
    exact hf o.health

lemma healths_in_unit_damage (t : SystemTopology) (ht : healths_in_unit t)
    (pa : String → Option ℚ) (parts : List String) (lock_ok : Bool) (busA : ℚ) :
    healths_in_unit (handle_damage pa parts lock_ok t busA).1 := by
  unfold handle_damage
  split
  · exact ht
  split
  · exact ht
  split
  · exact ht
  split
  · split
    · rename_i organs2 h hu
      exact healths_in_unit_update_first ht
        (fun x => ⟨clamp01_nonneg _, clamp01_le_one _⟩) hu
    · exact ht
  · exact ht

lemma healths_in_unit_heal (t : SystemTopology) (ht : healths_in_unit t)
    (pa : String → Option ℚ) (parts : List String) (lock_ok : Bool) (busA : ℚ) :
    healths_in_unit (handle_heal pa parts lock_ok t busA).1 := by
  unfold handle_heal
  split
  · exact ht
  split
  · exact ht
  split
  · exact ht
  split
  · split
    · rename_i organs2 h hu
      exact healths_in_unit_update_first ht
        (fun x => ⟨clamp01_nonneg _, clamp01_le_one _⟩) hu
    · exact ht
  · exact ht

lemma healths_in_unit_apply_state_line (ph : String → Option ℚ)
    {t : SystemTopology} (ht : healths_in_unit t) (line : List String) :
    healths_in_unit (apply_state_line ph t line) := by
  unfold apply_state_line
  split
  · exact ht
  · exact ht
  split
  · exact ht
  split
  · exact ht
  · intro o2 ho2
    rcases mem_set_first_health o2 ho2 with hh | ⟨o, ho, he⟩
    · exact ht o2 hh
    · subst he
      exact ⟨clamp01_nonneg _, clamp01_le_one _⟩

lemma healths_in_unit_load (t : SystemTopology) (ht : healths_in_unit t)
    (ph : String → Option ℚ) (lock_ok : Bool)
    (content : Option (List (List String))) (busA : ℚ) :
    healths_in_unit (handle_load_state ph lock_ok content t busA).1 := by
  unfold handle_load_state
  cases content with
  | none => exact ht
  | some lines =>
      simp only
      split_ifs with hlock
      · simp only
        induction lines generalizing t with
        | nil => exact ht
        | cons line rest ih =>
            simp only [List.foldl_cons]
            exact ih _ (healths_in_unit_apply_state_line ph ht line)
      · exact ht

/-- C2: every health-mutating operation (telemetry blend, simulation nudge,
damage, heal, load state) preserves the invariant that all organ healths
lie in the unit interval, and the awareness recomputed from any topology
lies in the unit interval. -/
theorem c2_health_invariants (t : SystemTopology) (ht : healths_in_unit t) :
    (∀ cpu_gpu mem io, healths_in_unit (apply_telemetry_to_topology t cpu_gpu mem io))
    ∧ (∀ lock_ok tick0 sim_level, healths_in_unit (sim_tick lock_ok tick0 sim_level t).2.1)
    ∧ (∀ pa parts lock_ok busA, healths_in_unit (handle_damage pa parts lock_ok t busA).1)
    ∧ (∀ pa parts lock_ok busA, healths_in_unit (handle_heal pa parts lock_ok t busA).1)
    ∧ (∀ ph lock_ok content busA, healths_in_unit (handle_load_state ph lock_ok content t busA).1)
    ∧ (∀ t2 : SystemTopology, 0 ≤ compute_awareness t2 ∧ compute_awareness t2 ≤ 1) := by
  refine ⟨fun cpu_gpu mem io => healths_in_unit_apply_telemetry t ht cpu_gpu mem io,
    fun lock_ok tick0 sim_level => healths_in_unit_sim_tick t ht lock_ok tick0 sim_level,
    fun pa parts lock_ok busA => healths_in_unit_damage t ht pa parts lock_ok busA,
    fun pa parts lock_ok busA => healths_in_unit_heal t ht pa parts lock_ok busA,
    fun ph lock_ok content busA => healths_in_unit_load t ht ph lock_ok content busA,
    fun t2 => ⟨compute_awareness_nonneg t2, compute_awareness_le_one t2⟩⟩

/-- Witness for C2 at the sample topology and a concrete telemetry reading. -/
theorem c2_witness :
    healths_in_unit (apply_telemetry_to_topology sample_topology
      { cpu_load := 0.3, cpu_temp_c := 80, throttling_events := 0,
        gpu_load := 0, gpu_mem_util := 0 }
      { ram_used_ratio := 0.9, swap_used_ratio := 0, major_page_faults := 0,
        disk_latency_ms := 5 }
      { net_packet_loss := 0.2, net_latency_ms := 5, io_queue_depth := 0.1,
        io_error_rate := 0 }) :=
  (c2_health_invariants sample_topology
    (by norm_num [healths_in_unit, sample_topology])).1 _ _ _

lemma blend_iter_invariant_up (h tgt : ℚ) (h0 : 0 ≤ h) (hle : h ≤ tgt)
    (t0 : 0 ≤ tgt) (t1 : tgt ≤ 1) :
    ∀ n : ℕ, 0 ≤ (fun x => blend_health x tgt 0.25)^[n] h
      ∧ (fun x => blend_health x tgt 0.25)^[n] h ≤ tgt := by
  intro n
  induction n with
  | zero => exact ⟨h0, hle⟩
  | succ n ih =>
      rw [Function.iterate_succ_apply']
      obtain ⟨ha0, ha1⟩ := ih
      rw [blend_health_formula _ _ ha0 (le_trans ha1 t1) t0 t1]
      constructor
      · linarith
      · linarith

lemma blend_iter_invariant_down (h tgt : ℚ) (h1 : h ≤ 1) (hge : tgt ≤ h)
    (t0 : 0 ≤ tgt) (t1 : tgt ≤ 1) :
    ∀ n : ℕ, tgt ≤ (fun x => blend_health x tgt 0.25)^[n] h
      ∧ (fun x => blend_health x tgt 0.25)^[n] h ≤ 1 := by
  intro n
  induction n with
  | zero => exact ⟨hge, h1⟩
  | succ n ih =>
      rw [Function.iterate_succ_apply']
      obtain ⟨ha0, ha1⟩ := ih
      rw [blend_health_formula _ _ (le_trans t0 ha0) ha1 t0 t1]
      constructor
      · linarith
      · linarith

/-- C3: one blend step computes 0.75 * current + 0.25 * target on
unit-interval inputs; a step at the fixed point (current = target) leaves
the health unchanged; and the iterated blend toward a constant target in
the unit interval moves monotonically toward that target, never
overshooting it. -/
theorem c3_blend_fixed_point_monotone (h tgt : ℚ)
    (h0 : 0 ≤ h) (h1 : h ≤ 1) (t0 : 0 ≤ tgt) (t1 : tgt ≤ 1) :
    blend_health h tgt 0.25 = 0.75 * h + 0.25 * tgt
    ∧ blend_health h h 0.25 = h
    ∧ (h ≤ tgt → ∀ n : ℕ,
        (fun x => blend_health x tgt 0.25)^[n] h ≤ (fun x => blend_health x tgt 0.25)^[n + 1] h
        ∧ (fun x => blend_health x tgt 0.25)^[n] h ≤ tgt)
    ∧ (tgt ≤ h → ∀ n : ℕ,
        (fun x => blend_health x tgt 0.25)^[n + 1] h ≤ (fun x => blend_health x tgt 0.25)^[n] h
        ∧ tgt ≤ (fun x => blend_health x tgt 0.25)^[n] h) := by
  refine ⟨blend_health_formula h tgt h0 h1 t0 t1, ?_, ?_, ?_⟩
  · rw [blend_health_formula h h h0 h1 h0 h1]; ring
  · intro hle n
    obtain ⟨ha0, ha1⟩ := blend_iter_invariant_up h tgt h0 hle t0 t1 n
    refine ⟨?_, ha1⟩
    rw [Function.iterate_succ_apply',
      blend_health_formula _ _ ha0 (le_trans ha1 t1) t0 t1]
    linarith
  · intro hge n
    obtain ⟨ha0, ha1⟩ := blend_iter_invariant_down h tgt h1 hge t0 t1 n
    refine ⟨?_, ha0⟩
    rw [Function.iterate_succ_apply',
      blend_health_formula _ _ (le_trans t0 ha0) ha1 t0 t1]
    linarith

/-- Witness for C3 at health 0.5 and target 0.9. -/
theorem c3_witness :
    blend_health 0.5 0.9 0.25 = 0.75 * 0.5 + 0.25 * 0.9
    ∧ blend_health 0.5 0.5 0.25 = 0.5 :=
  ⟨(c3_blend_fixed_point_monotone 0.5 0.9 (by norm_num) (by norm_num)
      (by norm_num) (by norm_num)).1,
    (c3_blend_fixed_point_monotone 0.5 0.9 (by norm_num) (by norm_num)
      (by norm_num) (by norm_num)).2.1⟩

lemma ai_policy_cases (a : ℚ) (sl : SimLevel) (ha0 : 0 ≤ a) :
    ((ai_policy a sl).1 = Policy.push_capacity ↔ 0.85 ≤ a)
    ∧ ((ai_policy a sl).1 = Policy.maintain_load ↔ 0.60 ≤ a ∧ a < 0.85)
    ∧ ((ai_policy a sl).1 = Policy.reduce_load ↔ 0.35 ≤ a ∧ a < 0.60)
    ∧ ((ai_policy a sl).1 = Policy.protect_core ↔ 0 < a ∧ a < 0.35)
    ∧ ((ai_policy a sl).1 = Policy.recover_offline ↔ a = 0)
    ∧ ((ai_policy a sl).2 = if 0 < a ∧ a < 0.35 then SimLevel.Off else sl) := by
  unfold ai_policy
  by_cases h1 : a ≥ 0.85
  · rw [if_pos h1, if_neg (show ¬(0 < a ∧ a < 0.35) by rintro ⟨_, hy⟩; linarith)]
    exact ⟨iff_of_true rfl h1,
      iff_of_false (fun hx => Policy.noConfusion hx) (fun hx => by linarith [hx.2]),
      iff_of_false (fun hx => Policy.noConfusion hx) (fun hx => by linarith [hx.2]),
      iff_of_false (fun hx => Policy.noConfusion hx) (fun hx => by linarith [hx.2]),
      iff_of_false (fun hx => Policy.noConfusion hx) (fun hx => by linarith),
      rfl⟩
  · rw [if_neg h1]
    simp only [not_le] at h1
    by_cases h2 : a ≥ 0.60
    · rw [if_pos h2, if_neg (show ¬(0 < a ∧ a < 0.35) by rintro ⟨_, hy⟩; linarith)]
      exact ⟨iff_of_false (fun hx => Policy.noConfusion hx) (fun hx => by linarith),
        iff_of_true rfl ⟨h2, h1⟩,
        iff_of_false (fun hx => Policy.noConfusion hx) (fun hx => by linarith [hx.2]),
        iff_of_false (fun hx => Policy.noConfusion hx) (fun hx => by linarith [hx.2]),
        iff_of_false (fun hx => Policy.noConfusion hx) (fun hx => by linarith),
        rfl⟩
    · rw [if_neg h2]
      simp only [not_le] at h2
      by_cases h3 : a ≥ 0.35
      · rw [if_pos h3, if_neg (show ¬(0 < a ∧ a < 0.35) by rintro ⟨_, hy⟩; linarith)]
        exact ⟨iff_of_false (fun hx => Policy.noConfusion hx) (fun hx => by linarith),
          iff_of_false (fun hx => Policy.noConfusion hx) (fun hx => by linarith [hx.1]),
          iff_of_true rfl ⟨h3, h2⟩,
          iff_of_false (fun hx => Policy.noConfusion hx) (fun hx => by linarith [hx.2]),
          iff_of_false (fun hx => Policy.noConfusion hx) (fun hx => by linarith),
          rfl⟩
      · rw [if_neg h3]
        simp only [not_le] at h3
        by_cases h4 : a > 0
        · rw [if_pos h4, if_pos ⟨h4, by linarith⟩]
          exact ⟨iff_of_false (fun hx => Policy.noConfusion hx) (fun hx => by linarith),
            iff_of_false (fun hx => Policy.noConfusion hx) (fun hx => by linarith [hx.1]),
            iff_of_false (fun hx => Policy.noConfusion hx) (fun hx => by linarith [hx.1]),
            iff_of_true rfl ⟨h4, by linarith⟩,
            iff_of_false (fun hx => Policy.noConfusion hx) (fun hx => by linarith),
            rfl⟩
        · rw [if_neg h4, if_neg (fun hx => h4 hx.1)]
          simp only [not_lt] at h4
          have hz : a = 0 := le_antisymm h4 ha0
          exact ⟨iff_of_false (fun hx => Policy.noConfusion hx) (fun hx => by linarith),
            iff_of_false (fun hx => Policy.noConfusion hx) (fun hx => by linarith [hx.1]),
            iff_of_false (fun hx => Policy.noConfusion hx) (fun hx => by linarith [hx.1]),
            iff_of_false (fun hx => Policy.noConfusion hx) (fun hx => by linarith [hx.1]),
            iff_of_true rfl hz,
            rfl⟩

/-- C6: on an AI-daemon tick with the topology lock held, the policy is
determined from the computed awareness by the breakpoints 0.85, 0.60, 0.35
and 0.0; the simulation level is forced Off exactly when the awareness lies
strictly between 0 and 0.35, and is left unchanged otherwise; and the
topology (hence every organ health) is not mutated. -/
theorem c6_ai_policy (t : SystemTopology) (busA : ℚ) (sim_level : SimLevel) :
    (ai_tick true t busA sim_level).1 = t
    ∧ ((ai_tick true t busA sim_level).2.1 = Policy.push_capacity ↔
        0.85 ≤ compute_awareness t)
    ∧ ((ai_tick true t busA sim_level).2.1 = Policy.maintain_load ↔
        0.60 ≤ compute_awareness t ∧ compute_awareness t < 0.85)
    ∧ ((ai_tick true t busA sim_level).2.1 = Policy.reduce_load ↔
        0.35 ≤ compute_awareness t ∧ compute_awareness t < 0.60)
    ∧ ((ai_tick true t busA sim_level).2.1 = Policy.protect_core ↔
        0 < compute_awareness t ∧ compute_awareness t < 0.35)
    ∧ ((ai_tick true t busA sim_level).2.1 = Policy.recover_offline ↔
        compute_awareness t = 0)
    ∧ ((ai_tick true t busA sim_level).2.2 =
        if 0 < compute_awareness t ∧ compute_awareness t < 0.35 then SimLevel.Off
        else sim_level) := by
  have hc := ai_policy_cases (compute_awareness t) sim_level (compute_awareness_nonneg t)
  exact ⟨rfl, hc.1, hc.2.1, hc.2.2.1, hc.2.2.2.1, hc.2.2.2.2.1, hc.2.2.2.2.2⟩

/-- C5: on a simulation-daemon tick with the lock held and a non-empty organ
list, the tick counter advances with wrapping u64 arithmetic; at Off no
organ health changes; otherwise exactly the round-robin organ (new tick
counter modulo organ count) is replaced by its clamped nudge — +0.02 on
every 5th tick and −0.01 otherwise at Low, +0.03 on every 3rd tick and
−0.04 otherwise at High — while every other organ and the node list are
unchanged. -/
theorem c5_sim_tick (tick0 : ℕ) (sim_level : SimLevel) (t : SystemTopology)
    (hne : t.organs ≠ []) :
    (sim_tick true tick0 sim_level t).1 = (tick0 + 1) % 2 ^ 64
    ∧ (sim_level = SimLevel.Off → (sim_tick true tick0 sim_level t).2.1 = t)
    ∧ (sim_level = SimLevel.Low →
        (sim_tick true tick0 sim_level t).2.1.organs =
          t.organs.set ((tick0 + 1) % 2 ^ 64 % t.organs.length)
            (nudge_health
              (t.organs.getD ((tick0 + 1) % 2 ^ 64 % t.organs.length) default_organ)
              (if (tick0 + 1) % 2 ^ 64 % 5 = 0 then 0.02 else -0.01)))
    ∧ (sim_level = SimLevel.High →
        (sim_tick true tick0 sim_level t).2.1.organs =
          t.organs.set ((tick0 + 1) % 2 ^ 64 % t.organs.length)
            (nudge_health
              (t.organs.getD ((tick0 + 1) % 2 ^ 64 % t.organs.length) default_organ)
              (if (tick0 + 1) % 2 ^ 64 % 3 = 0 then 0.03 else -0.04)))
    ∧ (sim_tick true tick0 sim_level t).2.1.nodes = t.nodes
    ∧ (∀ j, j ≠ (tick0 + 1) % 2 ^ 64 % t.organs.length →
        (sim_tick true tick0 sim_level t).2.1.organs.get? j = t.organs.get? j) := by
  have hie : t.organs.isEmpty = false := by
    simpa [List.isEmpty_iff] using hne
  cases sim_level with
  | Off =>
      refine ⟨rfl, fun _ => rfl, fun h => SimLevel.noConfusion h,
        fun h => SimLevel.noConfusion h, rfl, fun j hj => rfl⟩
  | Low =>
      simp only [sim_tick, hie]
      refine ⟨rfl, fun h => SimLevel.noConfusion h, fun _ => rfl,
        fun h => SimLevel.noConfusion h, rfl, fun j hj => ?_⟩
      exact List.get?_set_ne _ _ (fun he => hj he.symm)
  | High =>
      simp only [sim_tick, hie]
      refine ⟨rfl, fun h => SimLevel.noConfusion h,
        fun h => SimLevel.noConfusion h, fun _ => rfl, rfl, fun j hj => ?_⟩
      exact List.get?_set_ne _ _ (fun he => hj he.symm)

/-- Witness for C5: tick 1 at Low intensity on the sample topology nudges
the round-robin organ (index 1) with the stress delta. -/
theorem c5_witness :
    (sim_tick true 0 SimLevel.Low sample_topology).2.1.organs =
      sample_topology.organs.set ((0 + 1) % 2 ^ 64 % sample_topology.organs.length)
        (nudge_health
          (sample_topology.organs.getD
            ((0 + 1) % 2 ^ 64 % sample_topology.organs.length) default_organ)
          (if (0 + 1) % 2 ^ 64 % 5 = 0 then 0.02 else -0.01)) :=
  (c5_sim_tick 0 SimLevel.Low sample_topology (by simp [sample_topology])).2.2.1 rfl

lemma update_first_some (kind : OrganKind) (f : ℚ → ℚ) (l : List Organ) (h : ℚ)
    (hf : first_kind_health kind l = some h) :
    ∃ l2, update_first kind f l = some (l2, f h)
      ∧ first_kind_health kind l2 = some (f h) := by
  induction l with
  | nil => simp [first_kind_health] at hf
  | cons o rest ih =>
      by_cases hk : o.kind = kind
      · unfold first_kind_health at hf
        rw [if_pos hk] at hf
        injection hf with hf
        subst hf
        refine ⟨{ o with health := f o.health } :: rest, ?_, ?_⟩
        · unfold update_first
          rw [if_pos hk]
        · unfold first_kind_health
          rw [if_pos hk]
      · unfold first_kind_health at hf
        rw [if_neg hk] at hf
        obtain ⟨rest2, hu2, hf2⟩ := ih hf
        refine ⟨o :: rest2, ?_, ?_⟩
        · unfold update_first
          rw [if_neg hk, hu2]
        · unfold first_kind_health
          rw [if_neg hk]
          exact hf2

lemma handle_damage_first (pa : String → Option ℚ) (parts : List String)
    (t : SystemTopology) (busA : ℚ) (a : ℚ) (kind : OrganKind)
    (l2 : List Organ) (h2 : ℚ)
    (hlen : parts.length = 3)
    (hpa : pa (parts.getD 2 "") = some a)
    (hk : parse_organ_kind (parts.getD 1 "") = some kind)
    (hu : update_first kind (fun x => clamp01 (x - a)) t.organs = some (l2, h2)) :
    (handle_damage pa parts true t busA).1 = { t with organs := l2 } := by
  unfold handle_damage
  rw [if_neg (by rw [hlen]; norm_num), hpa, hk]
  simp only [hu]
  rw [if_pos trivial]

lemma handle_heal_first (pa : String → Option ℚ) (parts : List String)
    (t : SystemTopology) (busA : ℚ) (a : ℚ) (kind : OrganKind)
    (l2 : List Organ) (h2 : ℚ)
    (hlen : parts.length = 3)
    (hpa : pa (parts.getD 2 "") = some a)
    (hk : parse_organ_kind (parts.getD 1 "") = some kind)
    (hu : update_first kind (fun x => clamp01 (x + a)) t.organs = some (l2, h2)) :
    (handle_heal pa parts true t busA).1 = { t with organs := l2 } := by
  unfold handle_heal
  rw [if_neg (by rw [hlen]; norm_num), hpa, hk]
  simp only [hu]
  rw [if_pos trivial]

/-- C4: a valid damage command followed by a heal command of equal amount on
the same organ kind leaves the first organ of that kind at health
clamp(clamp(h − a) + a), where h was its health before; the round trip is
the identity except for clamping at the boundary. -/
theorem c4_damage_heal_roundtrip (pa : String → Option ℚ)
    (name amt : String) (a h : ℚ) (kind : OrganKind)
    (t : SystemTopology) (busA : ℚ)
    (hpa : pa amt = some a) (hk : parse_organ_kind name = some kind)
    (hh : first_kind_health kind t.organs = some h) :
    first_kind_health kind
      ((handle_heal pa ["heal", name, amt] true
        (handle_damage pa ["damage", name, amt] true t busA).1
        (handle_damage pa ["damage", name, amt] true t busA).2.1).1).organs
      = some (clamp01 (clamp01 (h - a) + a)) := by
  obtain ⟨l2, hu2, hf2⟩ := update_first_some kind (fun x => clamp01 (x - a)) t.organs h hh
  obtain ⟨l3, hu3, hf3⟩ :=
    update_first_some kind (fun x => clamp01 (x + a)) l2 (clamp01 (h - a)) hf2
  have hd1 : (handle_damage pa ["damage", name, amt] true t busA).1 = { t with organs := l2 } :=
    handle_damage_first pa _ t busA a kind l2 _ rfl hpa hk hu2
  rw [hd1]
  have hh1 : (handle_heal pa ["heal", name, amt] true { t with organs := l2 }
      (handle_damage pa ["damage", name, amt] true t busA).2.1).1 =
      { { t with organs := l2 } with organs := l3 } :=
    handle_heal_first pa _ _ _ a kind l3 _ rfl hpa hk hu3
  rw [hh1]
  exact hf3

/-- Witness for C4: damaging a Cortex at health 0.05 by 0.2 and healing by
0.2 yields 0.2, not 0.05, because the intermediate value clamped to 0. -/
theorem c4_witness :
    first_kind_health OrganKind.Cortex
      ((handle_heal (fun s => if s = "0.2" then some (0.2 : ℚ) else none)
        ["heal", "cortex", "0.2"] true
        (handle_damage (fun s => if s = "0.2" then some (0.2 : ℚ) else none)
          ["damage", "cortex", "0.2"] true c4_topo 1).1
        (handle_damage (fun s => if s = "0.2" then some (0.2 : ℚ) else none)
          ["damage", "cortex", "0.2"] true c4_topo 1).2.1).1).organs
      = some 0.2 := by
  have hr := c4_damage_heal_roundtrip
    (fun s => if s = "0.2" then some (0.2 : ℚ) else none)
    "cortex" "0.2" 0.2 0.05 OrganKind.Cortex c4_topo 1
    (by norm_num) rfl rfl
  have hv : clamp01 (clamp01 ((0.05 : ℚ) - 0.2) + 0.2) = 0.2 := by norm_num [clamp01]
  rw [hv] at hr
  exact hr

lemma update_first_none (kind : OrganKind) (f : ℚ → ℚ) (l : List Organ)
    (hno : ∀ o ∈ l, o.kind ≠ kind) : update_first kind f l = none := by
  induction l with
  | nil => rfl
  | cons o rest ih =>
      unfold update_first
      rw [if_neg (hno o (List.mem_cons_self o rest)),
        ih (fun o2 ho2 => hno o2 (List.mem_cons_of_mem o ho2))]

/-- C8: a damage or heal command with the wrong token count, an unparsable
amount, or an unknown organ name replies with the corresponding usage or
error message and leaves the topology and the bus awareness score
unchanged; when the arguments parse but no organ of the kind exists, it
replies not-found, again without any mutation. -/
theorem c8_damage_heal_errors (pa : String → Option ℚ) (parts : List String)
    (t : SystemTopology) (busA : ℚ) :
    (parts.length ≠ 3 →
      handle_damage pa parts true t busA =
        (t, busA, CmdResult.usage "usage: damage <organ> <amount>")
      ∧ handle_heal pa parts true t busA =
        (t, busA, CmdResult.usage "usage: heal <organ> <amount>"))
    ∧ (parts.length = 3 → pa (parts.getD 2 "") = none →
      handle_damage pa parts true t busA =
        (t, busA, CmdResult.invalid_amount (parts.getD 2 ""))
      ∧ handle_heal pa parts true t busA =
        (t, busA, CmdResult.invalid_amount (parts.getD 2 "")))
    ∧ (parts.length = 3 → ∀ a : ℚ, pa (parts.getD 2 "") = some a →
        parse_organ_kind (parts.getD 1 "") = none →
      handle_damage pa parts true t busA =
        (t, busA, CmdResult.unknown_organ (parts.getD 1 ""))
      ∧ handle_heal pa parts true t busA =
        (t, busA, CmdResult.unknown_organ (parts.getD 1 "")))
    ∧ (parts.length = 3 → ∀ (a : ℚ) (kind : OrganKind), pa (parts.getD 2 "") = some a →
        parse_organ_kind (parts.getD 1 "") = some kind →
        (∀ o ∈ t.organs, o.kind ≠ kind) →
      handle_damage pa parts true t busA = (t, busA, CmdResult.not_found kind)
      ∧ handle_heal pa parts true t busA = (t, busA, CmdResult.not_found kind)) := by
  refine ⟨fun hlen => ⟨?_, ?_⟩, fun hlen hpn => ⟨?_, ?_⟩,
    fun hlen a hpa hkn => ⟨?_, ?_⟩, fun hlen a kind hpa hk hno => ⟨?_, ?_⟩⟩
  · unfold handle_damage; rw [if_pos hlen]
  · unfold handle_heal; rw [if_pos hlen]
  · unfold handle_damage; rw [if_neg (by rw [hlen]; norm_num), hpn]
  · unfold handle_heal; rw [if_neg (by rw [hlen]; norm_num), hpn]
  · unfold handle_damage; rw [if_neg (by rw [hlen]; norm_num), hpa, hkn]
  · unfold handle_heal; rw [if_neg (by rw [hlen]; norm_num), hpa, hkn]
  · unfold handle_damage
    rw [if_neg (by rw [hlen]; norm_num), hpa, hk]
    simp only [update_first_none kind _ t.organs hno]
    rw [if_pos trivial]
  · unfold handle_heal
    rw [if_neg (by rw [hlen]; norm_num), hpa, hk]
    simp only [update_first_none kind _ t.organs hno]
    rw [if_pos trivial]

/-- Witness for C8: a damage command with a missing amount replies with the
usage line and changes nothing. -/
theorem c8_witness :
    handle_damage (fun _ => none) ["damage"] true sample_topology 1 =
      (sample_topology, 1, CmdResult.usage "usage: damage <organ> <amount>") :=
  ((c8_damage_heal_errors (fun _ => none) ["damage"] sample_topology 1).1 (by decide)).1

lemma update_first_eq_set (kind : OrganKind) (f : ℚ → ℚ) (l : List Organ)
    (l2 : List Organ) (h2 : ℚ) (hu : update_first kind f l = some (l2, h2)) :
    ∃ i o, l.get? i = some o ∧ o.kind = kind
      ∧ (∀ j, j < i → ∀ oj, l.get? j = some oj → oj.kind ≠ kind)
      ∧ l2 = l.set i { o with health := f o.health }
      ∧ h2 = f o.health := by
  induction l generalizing l2 h2 with
  | nil => simp [update_first] at hu
  | cons o rest ih =>
      unfold update_first at hu
      by_cases hk : o.kind = kind
      · rw [if_pos hk] at hu
        injection hu with hu
        injection hu with hu1 hu2
        exact ⟨0, o, rfl, hk, fun j hj => absurd hj (Nat.not_lt_zero j),
          hu1.symm, hu2.symm⟩
      · rw [if_neg hk] at hu
        cases hrest : update_first kind f rest with
        | none => rw [hrest] at hu; exact absurd hu (by simp)
        | some p =>
            obtain ⟨rest2, hh⟩ := p
            rw [hrest] at hu
            injection hu with hu
            injection hu with hu1 hu2
            obtain ⟨i, o3, hget, hkind, hmin, hset, hval⟩ := ih rest2 hh hrest
            refine ⟨i + 1, o3, hget, hkind, ?_, ?_, hu2 ▸ hval⟩
            · intro j hj oj hgj
              cases j with
              | zero =>
                  injection hgj with hgj
                  exact hgj ▸ hk
              | succ j2 =>
                  exact hmin j2 (Nat.lt_of_succ_lt_succ hj) oj hgj
            · rw [← hu1, hset]
              rfl

lemma first_kind_health_of_countP (kind : OrganKind) (l : List Organ)
    (hc : 0 < l.countP (fun o => o.kind == kind)) :
    ∃ h, first_kind_health kind l = some h := by
  induction l with
  | nil => simp [List.countP_nil] at hc
  | cons o rest ih =>
      by_cases hk : o.kind = kind
      · exact ⟨o.health, by unfold first_kind_health; rw [if_pos hk]⟩
      · rw [List.countP_cons] at hc
        have hb : (o.kind == kind) = false := by simpa using hk
        rw [hb] at hc
        simp only [Bool.false_eq_true, if_false, Nat.add_zero] at hc
        obtain ⟨h, hh⟩ := ih hc
        exact ⟨h, by unfold first_kind_health; rw [if_neg hk]; exact hh⟩

/-- C10: when the topology holds more than one organ of the requested kind,
a valid damage or heal command rewrites exactly the first organ of that
kind (the organ list is the old list with only that position replaced, and
only its health field changed); the node list and every other organ are
untouched. -/
theorem c10_first_organ_only (pa : String → Option ℚ) (name amt : String)
    (a : ℚ) (kind : OrganKind) (t : SystemTopology) (busA : ℚ)
    (hpa : pa amt = some a) (hk : parse_organ_kind name = some kind)
    (hmany : 1 < t.organs.countP (fun o => o.kind == kind)) :
    (∃ i o, t.organs.get? i = some o ∧ o.kind = kind
      ∧ (∀ j, j < i → ∀ oj, t.organs.get? j = some oj → oj.kind ≠ kind)
      ∧ (handle_damage pa ["damage", name, amt] true t busA).1 =
          { t with organs := t.organs.set i { o with health := clamp01 (o.health - a) } })
    ∧ (∃ i o, t.organs.get? i = some o ∧ o.kind = kind
      ∧ (∀ j, j < i → ∀ oj, t.organs.get? j = some oj → oj.kind ≠ kind)
      ∧ (handle_heal pa ["heal", name, amt] true t busA).1 =
          { t with organs := t.organs.set i { o with health := clamp01 (o.health + a) } }) := by
  obtain ⟨h, hh⟩ := first_kind_health_of_countP kind t.organs (by omega)
  constructor
  · obtain ⟨l2, hu, hf⟩ := update_first_some kind (fun x => clamp01 (x - a)) t.organs h hh
    obtain ⟨i, o, hget, hkind, hmin, hset, hval⟩ := update_first_eq_set _ _ _ _ _ hu
    refine ⟨i, o, hget, hkind, hmin, ?_⟩
    rw [handle_damage_first pa ["damage", name, amt] t busA a kind l2 _ rfl hpa hk hu, hset]
  · obtain ⟨l2, hu, hf⟩ := update_first_some kind (fun x => clamp01 (x + a)) t.organs h hh
    obtain ⟨i, o, hget, hkind, hmin, hset, hval⟩ := update_first_eq_set _ _ _ _ _ hu
    refine ⟨i, o, hget, hkind, hmin, ?_⟩
    rw [handle_heal_first pa ["heal", name, amt] t busA a kind l2 _ rfl hpa hk hu, hset]

/-- Witness for C10: on a topology with two Cortex organs, a damage command
rewrites only the organ at index 0. -/
theorem c10_witness :
    (handle_damage (fun s => if s = "0.1" then some (0.1 : ℚ) else none)
      ["damage", "cortex", "0.1"] true c10_topo 1).1 =
    { c10_topo with organs := c10_topo.organs.set 0 { id := 1, node := 1, kind := OrganKind.Cortex, caps := [], health := clamp01 (0.5 - 0.1), peripherals := [] } } := by
  obtain ⟨i, o, hget, hkind, hmin, hres⟩ :=
    (c10_first_organ_only (fun s => if s = "0.1" then some (0.1 : ℚ) else none)
      "cortex" "0.1" 0.1 OrganKind.Cortex c10_topo 1 rfl rfl (by decide)).1
  cases i with
  | zero =>
      injection hget with hget
      rw [← hget] at hres
      exact hres
  | succ i2 =>
      exact absurd rfl
        (hmin 0 (Nat.succ_pos i2)
          { id := 1, node := 1, kind := OrganKind.Cortex, caps := [],
            health := 0.5, peripherals := [] } rfl)

/-- C7: on a load-state command, a line whose organ name is unknown or whose
health value does not parse leaves the topology unchanged; a valid line
overwrites the health of the first matching organ, clamped; the awareness
stored to the bus is computed once from the topology after the whole file
is applied; and a file of one unknown-name line followed by one well-formed
line mutates only the organ named by the well-formed line. -/
theorem c7_load_state (ph : String → Option ℚ) (t : SystemTopology) (busA : ℚ) :
    (∀ kind_str health_str rest, parse_organ_kind kind_str = none →
        apply_state_line ph t (kind_str :: health_str :: rest) = t)
    ∧ (∀ kind_str health_str rest kind, parse_organ_kind kind_str = some kind →
        ph health_str = none →
        apply_state_line ph t (kind_str :: health_str :: rest) = t)
    ∧ (∀ kind_str health_str rest kind h, parse_organ_kind kind_str = some kind →
        ph health_str = some h →
        apply_state_line ph t (kind_str :: health_str :: rest) =
          { t with organs := set_first_health kind (clamp01 h) t.organs })
    ∧ (∀ lines, handle_load_state ph true (some lines) t busA =
        (lines.foldl (apply_state_line ph) t,
          compute_awareness (lines.foldl (apply_state_line ph) t),
          CmdResult.loaded (compute_awareness (lines.foldl (apply_state_line ph) t))
            (describe_awareness (compute_awareness (lines.foldl (apply_state_line ph) t)))))
    ∧ (∀ bad_kind bad_health good_kind good_health rest1 rest2 kind h,
        parse_organ_kind bad_kind = none →
        parse_organ_kind good_kind = some kind →
        ph good_health = some h →
        (handle_load_state ph true
          (some [bad_kind :: bad_health :: rest1, good_kind :: good_health :: rest2])
          t busA).1 =
          { t with organs := set_first_health kind (clamp01 h) t.organs }) := by
  refine ⟨?_, ?_, ?_, ?_, ?_⟩
  · intro kind_str health_str rest hkn
    simp only [apply_state_line, hkn]
  · intro kind_str health_str rest kind hk hpn
    simp only [apply_state_line, hk, hpn]
  · intro kind_str health_str rest kind h hk hp
    simp only [apply_state_line, hk, hp]
  · intro lines
    rfl
  · intro bad_kind bad_health good_kind good_health rest1 rest2 kind h hbad hk hp
    have h1 : apply_state_line ph t (bad_kind :: bad_health :: rest1) = t := by
      simp only [apply_state_line, hbad]
    have h2 : apply_state_line ph t (good_kind :: good_health :: rest2) =
        { t with organs := set_first_health kind (clamp01 h) t.organs } := by
      simp only [apply_state_line, hk, hp]
    show ([bad_kind :: bad_health :: rest1,
        good_kind :: good_health :: rest2].foldl (apply_state_line ph) t) = _
    rw [List.foldl_cons, h1, List.foldl_cons, h2, List.foldl_nil]

/-- Witness for C7: loading a two-line file with one unknown organ name and
one well-formed Cortex line mutates only the Cortex organ. -/
theorem c7_witness :
    (handle_load_state (fun s => if s = "0.42" then some (0.42 : ℚ) else none) true
      (some [["Bogus", "0.42"], ["Cortex", "0.42"]]) sample_topology 1).1 =
    { sample_topology with organs := set_first_health OrganKind.Cortex (clamp01 0.42) sample_topology.organs } :=
  (c7_load_state (fun s => if s = "0.42" then some (0.42 : ℚ) else none)
      sample_topology 1).2.2.2.2
    "Bogus" "0.42" "Cortex" "0.42" [] [] OrganKind.Cortex 0.42 rfl rfl rfl

/-- C9 fails on the code: when the topology lock cannot be acquired, the
HTTP status-read path does not report an error but substitutes the
fabricated healthy snapshot (1.0, ok, 1.0, optimal), indistinguishable
from a successful read of a fully healthy topology. -/
theorem c9_counterexample :
    http_snapshot none = (1, "ok", 1, "optimal")
    ∧ http_snapshot none = http_snapshot (some { nodes := [], organs := [] }) := by
  constructor
  · rfl
  · norm_num [http_snapshot, compute_overall_health, compute_awareness,
      describe_awareness, clamp01]

/-- C9 (amended): on topology-lock failure, the status-daemon tick and the
damage, heal, save and load commands report a textual error and skip the
operation leaving the topology and bus awareness unchanged; the simulation
daemon skips silently, publishing nothing; the AI daemon proceeds on the
cached bus awareness score, independent of the topology, without reporting
an error; and a status-read request substitutes the default healthy
snapshot without reporting an error.  None of these paths aborts. -/
theorem c9_lock_failure (t : SystemTopology) (busA : ℚ) :
    (∀ cpu_gpu mem io,
      status_tick false t busA cpu_gpu mem io =
        (t, busA, TickMsg.errMsg "status tick: failed to lock topology"))
    ∧ (∀ (pa : String → Option ℚ) (parts : List String) (a : ℚ) (kind : OrganKind),
        parts.length = 3 → pa (parts.getD 2 "") = some a →
        parse_organ_kind (parts.getD 1 "") = some kind →
        handle_damage pa parts false t busA =
          (t, busA, CmdResult.lock_failed "failed to lock topology for damage")
        ∧ handle_heal pa parts false t busA =
          (t, busA, CmdResult.lock_failed "failed to lock topology for heal"))
    ∧ (∀ write_ok, handle_save_state false write_ok t =
        (t, "failed to lock topology for save"))
    ∧ (∀ (ph : String → Option ℚ) lines,
        handle_load_state ph false (some lines) t busA =
          (t, busA, CmdResult.lock_failed "failed to lock topology for load"))
    ∧ (∀ tick0 sim_level, (sim_tick false tick0 sim_level t).2.1 = t
        ∧ (sim_tick false tick0 sim_level t).2.2 = TickMsg.noMsg)
    ∧ (∀ sim_level, (ai_tick false t busA sim_level).1 = t
        ∧ ∀ t2, (ai_tick false t busA sim_level).2 = (ai_tick false t2 busA sim_level).2)
    ∧ http_snapshot none = (1, "ok", 1, "optimal") := by
  refine ⟨fun cpu_gpu mem io => rfl, ?_, fun write_ok => rfl, fun ph lines => rfl,
    ?_, fun sim_level => ⟨rfl, fun t2 => rfl⟩, rfl⟩
  · intro pa parts a kind hlen hpa hk
    constructor
    · unfold handle_damage
      rw [if_neg (by rw [hlen]; norm_num), hpa, hk]
      rfl
    · unfold handle_heal
      rw [if_neg (by rw [hlen]; norm_num), hpa, hk]
      rfl
  · intro tick0 sim_level
    cases sim_level with
    | Off => exact ⟨rfl, rfl⟩
    | Low => exact ⟨rfl, rfl⟩
    | High => exact ⟨rfl, rfl⟩

/-- Witness for C9 at a concrete damage command under lock failure. -/
theorem c9_witness :
    handle_damage (fun s => if s = "0.1" then some (0.1 : ℚ) else none)
      ["damage", "cortex", "0.1"] false sample_topology 1 =
      (sample_topology, 1, CmdResult.lock_failed "failed to lock topology for damage") :=
  ((c9_lock_failure sample_topology 1).2.1
    (fun s => if s = "0.1" then some (0.1 : ℚ) else none)
    ["damage", "cortex", "0.1"] 0.1 OrganKind.Cortex rfl rfl rfl).1

end Aion
